import Mathlib

/-
Shallow embedding of the StackIt demo backend (src/questions.py and
src/auth.py): an in-memory question catalog with list/filter/sort/paginate,
fetch-by-id and append-create, and an in-memory account directory with
register, login and profile fetch.  Python dict records become structures,
module-level lists become explicit state passed in and out, Python's stable
`list.sort(key=..., reverse=...)` becomes `List.mergeSort` (also stable) with
the corresponding comparator, Python slicing becomes `pySlice`, and Python's
floor division `//` becomes `Int.fdiv`.
-/

instance {ε α : Type} [DecidableEq ε] [DecidableEq α] : DecidableEq (Except ε α)
  | Except.error e, Except.error f =>
    if h : e = f then isTrue (congrArg Except.error h)
    else isFalse (fun hh => h (Except.error.inj hh))
  | Except.error _, Except.ok _ => isFalse (fun hh => Except.noConfusion hh)
  | Except.ok _, Except.error _ => isFalse (fun hh => Except.noConfusion hh)
  | Except.ok a, Except.ok b =>
    if h : a = b then isTrue (congrArg Except.ok h)
    else isFalse (fun hh => h (Except.ok.inj hh))

structure Author where
  id : Nat
  name : String
  reputation : Nat
deriving DecidableEq

structure Tag where
  id : Nat
  name : String
deriving DecidableEq

/-- A question record, fields in the order of the Python dict literals. -/
structure Question where
  id : Nat
  title : String
  description : String
  author : Author
  tags : List Tag
  voteCount : Nat
  answerCount : Nat
  viewCount : Nat
  isResolved : Bool
  createdAt : String
  updatedAt : String
deriving DecidableEq

/-- An error response: HTTP status code plus the message in the error envelope. -/
structure ErrResp where
  status : Nat
  message : String
deriving DecidableEq

structure Pagination where
  page : Int
  limit : Int
  total : Nat
  totalPages : Int
  hasPrev : Bool
  hasNext : Bool
deriving DecidableEq

structure QuestionsResp where
  questions : List Question
  pagination : Pagination
deriving DecidableEq

/-- The module-level `mock_questions` list from src/questions.py. -/
def mock_questions : List Question :=
  [⟨1, "How to implement authentication in React?",
    "I'm building a React application and need to implement user authentication. What are the best practices for handling login, logout, and protecting routes?",
    ⟨1, "John Doe", 1250⟩,
    [⟨1, "react"⟩, ⟨2, "authentication"⟩],
    15, 3, 245, true, "2024-01-15T10:30:00Z", "2024-01-16T14:20:00Z"⟩,
   ⟨2, "Best practices for Node.js API design",
    "What are the recommended patterns and practices for designing RESTful APIs in Node.js? I'm particularly interested in error handling, validation, and security.",
    ⟨2, "Jane Smith", 890⟩,
    [⟨3, "nodejs"⟩, ⟨4, "api"⟩, ⟨5, "rest"⟩],
    8, 2, 156, false, "2024-01-14T16:45:00Z", "2024-01-14T16:45:00Z"⟩,
   ⟨3, "Database optimization techniques",
    "My application is experiencing slow database queries. What are some effective techniques for optimizing database performance in a web application?",
    ⟨3, "Mike Johnson", 2100⟩,
    [⟨6, "database"⟩, ⟨7, "optimization"⟩, ⟨8, "performance"⟩],
    22, 5, 387, true, "2024-01-13T09:15:00Z", "2024-01-15T11:30:00Z"⟩]

/-- Python's `str.lower()`: char-wise lowercasing. -/
def strLower (s : String) : String :=
  ⟨s.data.map Char.toLower⟩

/-- Python's `needle in hay` on strings: contiguous substring occurrence. -/
def strContains (hay needle : String) : Bool :=
  decide (needle.toList <:+: hay.toList)

/-- The search predicate of `get_questions`:
`search.lower() in q['title'].lower() or search.lower() in q['description'].lower()`. -/
def matchesSearch (search : String) (q : Question) : Bool :=
  strContains (strLower q.title) (strLower search) ||
    strContains (strLower q.description) (strLower search)

/-- The filtering step of `get_questions`: `if search:` guards the list
comprehension, so an empty (falsy) search keeps the catalog as is. -/
def filterQuestions (search : String) (l : List Question) : List Question :=
  if search = "" then l else l.filter (matchesSearch search)

/-- Python's stable `list.sort(key=k, reverse=rev)` for a comparator `le`
that holds iff the keys are in ascending order: with `reverse=True` the
list is stably sorted by the reversed key order (ties keep their original
relative order, exactly as in CPython).  A stable sort with respect to a
fixed total preorder is unique, so the stable `insertionSort` computes the
same list as CPython's stable sort. -/
def pySort (rev : Bool) (le : Question → Question → Bool) (l : List Question) :
    List Question :=
  if rev then List.insertionSort (fun a b => le b a = true) l
  else List.insertionSort (fun a b => le a b = true) l

/-- The sorting step of `get_questions`: dispatch on `sort_by`, defaulting to
`createdAt` compared as a string (lexicographically, as Python does). -/
def sortQuestions (sb : String) (rev : Bool) (l : List Question) : List Question :=
  if sb = "voteCount" then
    pySort rev (fun a b => decide (a.voteCount ≤ b.voteCount)) l
  else if sb = "answerCount" then
    pySort rev (fun a b => decide (a.answerCount ≤ b.answerCount)) l
  else if sb = "viewCount" then
    pySort rev (fun a b => decide (a.viewCount ≤ b.viewCount)) l
  else
    pySort rev (fun a b => decide (a.createdAt ≤ b.createdAt)) l

/-- Python slice-index adjustment for `l[i]`-style bounds: negative indices
count from the end (clamped below at 0), nonnegative ones are clamped at the
length. -/
def pyIdx (n : Nat) (i : Int) : Nat :=
  if i < 0 then (i + n).toNat else min i.toNat n

/-- Python's `l[a:b]` (step 1). -/
def pySlice {α : Type} (l : List α) (a b : Int) : List α :=
  (l.take (pyIdx l.length b)).drop (pyIdx l.length a)

/-- The filtered-then-sorted list that `get_questions` paginates
(`filtered_questions` after the `sort` call). -/
def filteredSorted (search sb so : String) (cat : List Question) : List Question :=
  sortQuestions sb (decide (so = "desc")) (filterQuestions search cat)

/-- `get_questions` from src/questions.py, as a function from the query
parameters and the current catalog to the HTTP result and the catalog after
the call.  Two behaviours of the Python code are modelled exactly:
with an empty search string, `filtered_questions` aliases the module-level
`mock_questions`, so the in-place `sort` reorders the stored catalog; and
`limit == 0` raises `ZeroDivisionError` at the `total_pages` computation
(caught and turned into a 500), after the sort has already happened. -/
def get_questions (page limit : Int) (search sb so : String)
    (cat : List Question) : Except ErrResp QuestionsResp × List Question :=
  (if limit = 0 then
     Except.error ⟨500, "integer division or modulo by zero"⟩
   else
     Except.ok
       ⟨pySlice (filteredSorted search sb so cat) ((page - 1) * limit)
          ((page - 1) * limit + limit),
        ⟨page, limit, (filteredSorted search sb so cat).length,
         (((filteredSorted search sb so cat).length : Int) + limit - 1).fdiv limit,
         decide (1 < page),
         decide (page <
           (((filteredSorted search sb so cat).length : Int) + limit - 1).fdiv limit)⟩⟩,
   if search = "" then filteredSorted search sb so cat else cat)

/-- `get_question` from src/questions.py: linear scan by exact id match. -/
def get_question (qid : Nat) (cat : List Question) : Except ErrResp Question :=
  match cat.find? (fun q => q.id == qid) with
  | none => Except.error ⟨404, "Question not found"⟩
  | some q => Except.ok q

/-- A parsed JSON body for question creation; `none` models an absent key. -/
structure CreateReq where
  title : Option String
  description : Option String
  tags : Option (List Tag)

/-- Python truthiness of `data.get(key)` for a string-valued field: absent
keys give `None` (falsy) and the empty string is falsy. -/
def truthy : Option String → Bool
  | none => false
  | some s => !(s == "")

/-- The validation condition of `create_question`:
`not data or not data.get('title') or not data.get('description')` negated. -/
def createOk : Option CreateReq → Bool
  | none => false
  | some d => truthy d.title && truthy d.description

/-- `create_question` from src/questions.py: validate, then append a record
with id `len(mock_questions) + 1`, the hardcoded demo author, zeroed
counters and the fixed literal timestamps, and return it. -/
def create_question (data : Option CreateReq) (cat : List Question) :
    Except ErrResp Question × List Question :=
  match data with
  | none => (Except.error ⟨400, "Title and description are required"⟩, cat)
  | some d =>
    if truthy d.title && truthy d.description then
      (Except.ok ⟨cat.length + 1, d.title.getD "", d.description.getD "",
         ⟨1, "Current User", 100⟩, d.tags.getD [], 0, 0, 0, false,
         "2024-01-16T12:00:00Z", "2024-01-16T12:00:00Z"⟩,
       cat ++ [⟨cat.length + 1, d.title.getD "", d.description.getD "",
         ⟨1, "Current User", 100⟩, d.tags.getD [], 0, 0, 0, false,
         "2024-01-16T12:00:00Z", "2024-01-16T12:00:00Z"⟩])
    else (Except.error ⟨400, "Title and description are required"⟩, cat)

/-- A user record, fields in the order of the Python dict literals in
src/auth.py. -/
structure User where
  id : Nat
  email : String
  name : String
  password : String
  reputation : Nat
  avatar : Option String
deriving DecidableEq

/-- A JSON value as it appears in a user response dict. -/
inductive JValue where
  | int (n : Int)
  | str (s : String)
  | null
deriving DecidableEq

/-- The items of the Python user dict, in insertion order. -/
def User.toDict (u : User) : List (String × JValue) :=
  [("id", JValue.int u.id), ("email", JValue.str u.email),
   ("name", JValue.str u.name), ("password", JValue.str u.password),
   ("reputation", JValue.int u.reputation),
   ("avatar", u.avatar.elim JValue.null JValue.str)]

/-- `{k: v for k, v in user.items() if k != 'password'}`. -/
def stripPassword (d : List (String × JValue)) : List (String × JValue) :=
  d.filter (fun kv => kv.1 != "password")

/-- The module-level `mock_users` list from src/auth.py. -/
def mock_users : List User :=
  [⟨1, "demo@stackit.com", "Demo User", "demo123", 1250, none⟩]

/-- The fixed placeholder token pair returned by register and login. -/
def mockTokens : List (String × String) :=
  [("accessToken", "mock_access_token"), ("refreshToken", "mock_refresh_token")]

/-- A successful auth response body: the stripped user dict plus tokens. -/
structure AuthResp where
  user : List (String × JValue)
  tokens : List (String × String)
deriving DecidableEq

/-- A parsed JSON body for registration; `none` models an absent key. -/
structure RegisterReq where
  email : Option String
  password : Option String
  name : Option String

/-- A parsed JSON body for login; `none` models an absent key. -/
structure LoginReq where
  email : Option String
  password : Option String

/-- `register` from src/auth.py: validate presence (Python truthiness) of
email, password and name; reject an email already in the directory with a
409; otherwise append a user with id `len(mock_users) + 1`, reputation 0 and
no avatar, and return the record without its password plus the fixed
tokens. -/
def register (data : Option RegisterReq) (users : List User) :
    Except ErrResp AuthResp × List User :=
  match data with
  | none => (Except.error ⟨400, "Email, password, and name are required"⟩, users)
  | some d =>
    if truthy d.email && truthy d.password && truthy d.name then
      match users.find? (fun u => u.email == d.email.getD "") with
      | some _ => (Except.error ⟨409, "User with this email already exists"⟩, users)
      | none =>
        (Except.ok
          ⟨stripPassword (User.toDict ⟨users.length + 1, d.email.getD "",
             d.name.getD "", d.password.getD "", 0, none⟩), mockTokens⟩,
         users ++ [⟨users.length + 1, d.email.getD "", d.name.getD "",
           d.password.getD "", 0, none⟩])
    else (Except.error ⟨400, "Email, password, and name are required"⟩, users)

/-- `login` from src/auth.py: validate presence of email and password, find
the user by email, compare the stored password by exact string equality, and
return the stripped record plus the fixed tokens.  The directory is not
modified, so only the response is returned. -/
def login (data : Option LoginReq) (users : List User) : Except ErrResp AuthResp :=
  match data with
  | none => Except.error ⟨400, "Email and password are required"⟩
  | some d =>
    if truthy d.email && truthy d.password then
      match users.find? (fun u => u.email == d.email.getD "") with
      | none => Except.error ⟨401, "Invalid email or password"⟩
      | some u =>
        if u.password == d.password.getD "" then
          Except.ok ⟨stripPassword u.toDict, mockTokens⟩
        else Except.error ⟨401, "Invalid email or password"⟩
    else Except.error ⟨400, "Email and password are required"⟩

/-- `get_profile` from src/auth.py: return the first directory record
(password stripped), or a 404 when the directory is empty. -/
def get_profile (users : List User) : Except ErrResp (List (String × JValue)) :=
  match users with
  | [] => Except.error ⟨404, "User not found"⟩
  | u :: _ => Except.ok (stripPassword u.toDict)

/-- The per-pair ordering that the spec asserts for the returned page: the
key named by `sortBy` (`voteCount`, `answerCount`, `viewCount`, anything
else meaning `createdAt` compared lexicographically as a string), descending
iff `sortOrder = "desc"`. -/
def sortRel (sb so : String) (a b : Question) : Prop :=
  if sb = "voteCount" then
    (if so = "desc" then b.voteCount ≤ a.voteCount else a.voteCount ≤ b.voteCount)
  else if sb = "answerCount" then
    (if so = "desc" then b.answerCount ≤ a.answerCount else a.answerCount ≤ b.answerCount)
  else if sb = "viewCount" then
    (if so = "desc" then b.viewCount ≤ a.viewCount else a.viewCount ≤ b.viewCount)
  else
    (if so = "desc" then b.createdAt ≤ a.createdAt else a.createdAt ≤ b.createdAt)

theorem pairwise_pySort_asc {κ : Type} [LinearOrder κ] (key : Question → κ)
    (l : List Question) :
    List.Pairwise (fun a b => key a ≤ key b)
      (pySort false (fun a b => decide (key a ≤ key b)) l) := by
  haveI : IsTrans Question (fun a b => decide (key a ≤ key b) = true) :=
    ⟨fun a b c h1 h2 => by
      simp only [decide_eq_true_eq] at h1 h2 ⊢
      exact le_trans h1 h2⟩
  haveI : IsTotal Question (fun a b => decide (key a ≤ key b) = true) :=
    ⟨fun a b => by simp only [decide_eq_true_eq]; exact le_total _ _⟩
  have hs := List.sorted_insertionSort
    (fun a b : Question => decide (key a ≤ key b) = true) l
  exact List.Pairwise.imp (fun h => of_decide_eq_true h) hs

theorem pairwise_pySort_desc {κ : Type} [LinearOrder κ] (key : Question → κ)
    (l : List Question) :
    List.Pairwise (fun a b => key b ≤ key a)
      (pySort true (fun a b => decide (key a ≤ key b)) l) := by
  haveI : IsTrans Question (fun a b => decide (key b ≤ key a) = true) :=
    ⟨fun a b c h1 h2 => by
      simp only [decide_eq_true_eq] at h1 h2 ⊢
      exact le_trans h2 h1⟩
  haveI : IsTotal Question (fun a b => decide (key b ≤ key a) = true) :=
    ⟨fun a b => by simp only [decide_eq_true_eq]; exact le_total _ _⟩
  have hs := List.sorted_insertionSort
    (fun a b : Question => decide (key b ≤ key a) = true) l
  exact List.Pairwise.imp (fun h => of_decide_eq_true h) hs

theorem pairwise_sortRel_filteredSorted (search sb so : String)
    (cat : List Question) :
    List.Pairwise (sortRel sb so) (filteredSorted search sb so cat) := by
  unfold filteredSorted sortQuestions sortRel
  by_cases h2 : so = "desc"
  · have hd : decide (so = "desc") = true := by simp [h2]
    rw [hd]
    by_cases hv : sb = "voteCount"
    · simp only [if_pos hv, if_pos h2]
      exact pairwise_pySort_desc (fun q => q.voteCount) _
    · by_cases ha : sb = "answerCount"
      · simp only [if_neg hv, if_pos ha, if_pos h2]
        exact pairwise_pySort_desc (fun q => q.answerCount) _
      · by_cases hw : sb = "viewCount"
        · simp only [if_neg hv, if_neg ha, if_pos hw, if_pos h2]
          exact pairwise_pySort_desc (fun q => q.viewCount) _
        · simp only [if_neg hv, if_neg ha, if_neg hw, if_pos h2]
          exact pairwise_pySort_desc (fun q => q.createdAt) _
  · have hd : decide (so = "desc") = false := by simp [h2]
    rw [hd]
    by_cases hv : sb = "voteCount"
    · simp only [if_pos hv, if_neg h2]
      exact pairwise_pySort_asc (fun q => q.voteCount) _
    · by_cases ha : sb = "answerCount"
      · simp only [if_neg hv, if_pos ha, if_neg h2]
        exact pairwise_pySort_asc (fun q => q.answerCount) _
      · by_cases hw : sb = "viewCount"
        · simp only [if_neg hv, if_neg ha, if_pos hw, if_neg h2]
          exact pairwise_pySort_asc (fun q => q.viewCount) _
        · simp only [if_neg hv, if_neg ha, if_neg hw, if_neg h2]
          exact pairwise_pySort_asc (fun q => q.createdAt) _

theorem perm_sortQuestions (sb : String) (rev : Bool) (l : List Question) :
    (sortQuestions sb rev l).Perm l := by
  unfold sortQuestions pySort
  split_ifs <;> exact List.perm_insertionSort _ _

theorem filterQuestions_empty_eq (cat : List Question) :
    filterQuestions "" cat = cat := by
  simp [filterQuestions]

theorem pySlice_sublist {α : Type} (l : List α) (a b : Int) :
    (pySlice l a b).Sublist l := by
  unfold pySlice
  exact (List.drop_sublist _ _).trans (List.take_sublist _ _)

theorem pySlice_eq_nil {α : Type} {l : List α} {a : Int} (b : Int) (ha : 0 ≤ a)
    (h : (l.length : Int) ≤ a) : pySlice l a b = [] := by
  unfold pySlice pyIdx
  rw [if_neg (not_lt.mpr ha)]
  have h1 : l.length ≤ a.toNat := by omega
  rw [min_eq_right h1]
  apply List.drop_eq_nil_of_le
  rw [List.length_take]
  exact Nat.min_le_right _ _

theorem matchesSearch_empty (q : Question) : matchesSearch "" q = true := by
  have hnil : (strLower "").toList = [] := rfl
  unfold matchesSearch strContains
  rw [hnil]
  have : ([] : List Char) <:+: (strLower q.title).toList :=
    ⟨[], (strLower q.title).toList, by simp⟩
  simp [this]

theorem fdiv_ceil_eq (t : Nat) (L : Int) (hL : 1 ≤ L) :
    ((t : Int) + L - 1).fdiv L = ⌈(t : ℚ) / (L : ℚ)⌉ := by
  have hL0 : 0 < L := hL
  rw [Int.fdiv_eq_ediv _ (le_of_lt hL0)]
  have hmod := Int.ediv_add_emod ((t : Int) + L - 1) L
  have hmn : 0 ≤ ((t : Int) + L - 1) % L := Int.emod_nonneg _ (ne_of_gt hL0)
  have hml : ((t : Int) + L - 1) % L < L := Int.emod_lt_of_pos _ hL0
  have h1 : (t : Int) ≤ L * (((t : Int) + L - 1) / L) := by linarith
  have h2 : L * ((((t : Int) + L - 1) / L) - 1) < (t : Int) := by
    have hx : L * ((((t : Int) + L - 1) / L) - 1)
        = L * (((t : Int) + L - 1) / L) - L := by ring
    rw [hx]; linarith
  have h1' : (t : Int) ≤ (((t : Int) + L - 1) / L) * L := by rw [mul_comm]; exact h1
  have h2' : ((((t : Int) + L - 1) / L) - 1) * L < (t : Int) := by
    rw [mul_comm]; exact h2
  have hLQ : (0 : ℚ) < (L : ℚ) := by exact_mod_cast hL0
  symm
  rw [Int.ceil_eq_iff]
  constructor
  · rw [lt_div_iff₀ hLQ]
    exact_mod_cast h2'
  · rw [div_le_iff₀ hLQ]
    exact_mod_cast h1'

/-- C1: every question on the returned page matches the search string
case-insensitively in its title or description, the returned total counts
all matching catalog questions (not the page), and an empty search keeps
every catalog question. -/
theorem getQuestions_search_filter (page limit : Int) (search sb so : String)
    (cat : List Question) (h : limit ≠ 0) :
    ∃ resp cat2,
      get_questions page limit search sb so cat = (Except.ok resp, cat2) ∧
      (∀ q ∈ resp.questions,
        (strLower search).toList <:+: (strLower q.title).toList ∨
          (strLower search).toList <:+: (strLower q.description).toList) ∧
      resp.pagination.total = cat.countP (matchesSearch search) ∧
      (search = "" → resp.pagination.total = cat.length) := by
  unfold get_questions
  rw [if_neg h]
  refine ⟨_, _, rfl, ?_, ?_, ?_⟩
  · intro q hq
    have hq1 : q ∈ filteredSorted search sb so cat :=
      (pySlice_sublist _ _ _).subset hq
    have hq2 : q ∈ filterQuestions search cat :=
      ((perm_sortQuestions _ _ _).mem_iff).mp hq1
    have hm : matchesSearch search q = true := by
      by_cases hs : search = ""
      · subst hs; exact matchesSearch_empty q
      · unfold filterQuestions at hq2
        rw [if_neg hs] at hq2
        exact List.of_mem_filter hq2
    simpa [matchesSearch, strContains, Bool.or_eq_true, decide_eq_true_eq]
      using hm
  · show (filteredSorted search sb so cat).length = _
    unfold filteredSorted
    rw [(perm_sortQuestions _ _ _).length_eq]
    by_cases hs : search = ""
    · subst hs
      rw [filterQuestions_empty_eq]
      exact (List.countP_eq_length.mpr (fun q _ => matchesSearch_empty q)).symm
    · unfold filterQuestions
      rw [if_neg hs]
      exact (List.countP_eq_length_filter _ _).symm
  · intro hs
    subst hs
    show (filteredSorted "" sb so cat).length = _
    unfold filteredSorted
    rw [(perm_sortQuestions _ _ _).length_eq, filterQuestions_empty_eq]

/-- C1 witness: a concrete successful invocation of the theorem. -/
theorem getQuestions_search_filter_witness :
    ∃ resp cat2,
      get_questions 1 20 "react" "voteCount" "desc" mock_questions
        = (Except.ok resp, cat2) ∧
      (∀ q ∈ resp.questions,
        (strLower "react").toList <:+: (strLower q.title).toList ∨
          (strLower "react").toList <:+: (strLower q.description).toList) ∧
      resp.pagination.total = mock_questions.countP (matchesSearch "react") ∧
      (("react" : String) = "" → resp.pagination.total = mock_questions.length) :=
  getQuestions_search_filter 1 20 "react" "voteCount" "desc" mock_questions
    (by decide)

/-- C3: the returned page is ordered by the key named by `sortBy`
(descending iff `sortOrder = "desc"`) between every adjacent pair. -/
theorem getQuestions_sorted (page limit : Int) (search sb so : String)
    (cat : List Question) (h : limit ≠ 0) :
    ∃ resp cat2,
      get_questions page limit search sb so cat = (Except.ok resp, cat2) ∧
      List.Chain' (sortRel sb so) resp.questions := by
  unfold get_questions
  rw [if_neg h]
  exact ⟨_, _, rfl,
    (List.Pairwise.sublist (pySlice_sublist _ _ _)
      (pairwise_sortRel_filteredSorted search sb so cat)).chain'⟩

/-- C3 witness: a concrete successful invocation of the theorem. -/
theorem getQuestions_sorted_witness :
    ∃ resp cat2,
      get_questions 1 20 "" "voteCount" "desc" mock_questions
        = (Except.ok resp, cat2) ∧
      List.Chain' (sortRel "voteCount" "desc") resp.questions :=
  getQuestions_sorted 1 20 "" "voteCount" "desc" mock_questions (by decide)

/-- C4: for `limit ≥ 1` the pagination metadata satisfies
`totalPages = ⌈total / limit⌉` (with the code's `(total + limit - 1) // limit`
equalling the rational ceiling), `hasNext ↔ page < totalPages`,
`hasPrev ↔ page > 1`, and `total` is the post-filter pre-slice count. -/
theorem getQuestions_pagination (page limit : Int) (search sb so : String)
    (cat : List Question) (h : 1 ≤ limit) :
    ∃ resp cat2,
      get_questions page limit search sb so cat = (Except.ok resp, cat2) ∧
      resp.pagination.totalPages = ⌈(resp.pagination.total : ℚ) / (limit : ℚ)⌉ ∧
      ((resp.pagination.total : Int) + limit - 1).fdiv limit
        = ⌈(resp.pagination.total : ℚ) / (limit : ℚ)⌉ ∧
      (resp.pagination.hasNext = true ↔ page < resp.pagination.totalPages) ∧
      (resp.pagination.hasPrev = true ↔ 1 < page) ∧
      resp.pagination.total = (filterQuestions search cat).length := by
  have h0 : limit ≠ 0 := by omega
  unfold get_questions
  rw [if_neg h0]
  refine ⟨_, _, rfl, ?_, ?_, ?_, ?_, ?_⟩
  · exact fdiv_ceil_eq _ _ h
  · exact fdiv_ceil_eq _ _ h
  · simp only [decide_eq_true_eq]
  · simp only [decide_eq_true_eq]
  · show (filteredSorted search sb so cat).length = _
    unfold filteredSorted
    exact (perm_sortQuestions _ _ _).length_eq

/-- C4 witness: a concrete successful invocation of the theorem. -/
theorem getQuestions_pagination_witness :
    ∃ resp cat2,
      get_questions 2 2 "" "createdAt" "desc" mock_questions
        = (Except.ok resp, cat2) ∧
      resp.pagination.totalPages = ⌈(resp.pagination.total : ℚ) / ((2 : Int) : ℚ)⌉ ∧
      ((resp.pagination.total : Int) + 2 - 1).fdiv 2
        = ⌈(resp.pagination.total : ℚ) / ((2 : Int) : ℚ)⌉ ∧
      (resp.pagination.hasNext = true ↔ 2 < resp.pagination.totalPages) ∧
      (resp.pagination.hasPrev = true ↔ 1 < (2 : Int)) ∧
      resp.pagination.total = (filterQuestions "" mock_questions).length :=
  getQuestions_pagination 2 2 "" "createdAt" "desc" mock_questions (by decide)

/-- C8: with `page ≥ 1`, `limit ≥ 1` and `(page-1)*limit` at or past the
post-filter total, the returned page is empty, no error is produced, and the
total still reports the full filtered-set size. -/
theorem getQuestions_out_of_range (page limit : Int) (search sb so : String)
    (cat : List Question) (hp : 1 ≤ page) (hl : 1 ≤ limit)
    (hout : ((filterQuestions search cat).length : Int) ≤ (page - 1) * limit) :
    ∃ resp cat2,
      get_questions page limit search sb so cat = (Except.ok resp, cat2) ∧
      resp.questions = [] ∧
      resp.pagination.total = (filterQuestions search cat).length := by
  have h0 : limit ≠ 0 := by omega
  have hlen : (filteredSorted search sb so cat).length
      = (filterQuestions search cat).length := by
    unfold filteredSorted
    exact (perm_sortQuestions _ _ _).length_eq
  unfold get_questions
  rw [if_neg h0]
  refine ⟨_, _, rfl, ?_, ?_⟩
  · show pySlice _ _ _ = []
    apply pySlice_eq_nil
    · exact mul_nonneg (by omega) (by omega)
    · rw [hlen]; exact hout
  · exact hlen

/-- C8 witness: page 5 of a 3-question catalog is empty but keeps the total. -/
theorem getQuestions_out_of_range_witness :
    ∃ resp cat2,
      get_questions 5 20 "" "createdAt" "desc" mock_questions
        = (Except.ok resp, cat2) ∧
      resp.questions = [] ∧
      resp.pagination.total = (filterQuestions "" mock_questions).length :=
  getQuestions_out_of_range 5 20 "" "createdAt" "desc" mock_questions
    (by decide) (by decide) (by decide)

/-- C2 counterexample: an empty-search listing sorted by voteCount
descending reorders the stored catalog in place (`filtered_questions`
aliases `mock_questions`, and `list.sort` mutates it), so the catalog after
the call differs from the catalog before it. -/
theorem getQuestions_mutates_catalog_cex :
    (get_questions 1 20 "" "voteCount" "desc" mock_questions).2
      ≠ mock_questions := by decide

/-- C2 amended: listing never adds, removes or modifies a stored question —
the catalog after the call is a permutation of the catalog before it — and
whenever the search string is nonempty the catalog, including its order, is
unchanged; an empty search sorts the catalog list in place and may reorder
it. -/
theorem getQuestions_catalog_perm (page limit : Int) (search sb so : String)
    (cat : List Question) :
    ((get_questions page limit search sb so cat).2.Perm cat) ∧
    (search ≠ "" → (get_questions page limit search sb so cat).2 = cat) := by
  unfold get_questions
  by_cases hs : search = ""
  · subst hs
    constructor
    · show (if ("" : String) = "" then filteredSorted "" sb so cat else cat).Perm cat
      rw [if_pos rfl]
      unfold filteredSorted
      exact (perm_sortQuestions _ _ _).trans
        (List.Perm.of_eq (filterQuestions_empty_eq cat))
    · intro hne
      exact absurd rfl hne
  · constructor
    · show (if search = "" then filteredSorted search sb so cat else cat).Perm cat
      rw [if_neg hs]
    · intro _
      show (if search = "" then filteredSorted search sb so cat else cat) = cat
      rw [if_neg hs]

/-- C2 witness: a nonempty search leaves the catalog exactly as it was. -/
theorem getQuestions_catalog_perm_witness :
    (get_questions 1 20 "react" "voteCount" "desc" mock_questions).2
      = mock_questions :=
  (getQuestions_catalog_perm 1 20 "react" "voteCount" "desc" mock_questions).2
    (by decide)

/-- C7: fetching a question by id returns a catalog question with that id
when one exists, and a 404 not-found error when none does; the function is
total, so no unhandled exception is possible. -/
theorem getQuestion_found_or_404 (qid : Nat) (cat : List Question) :
    ((∃ q ∈ cat, q.id = qid) →
      ∃ q, get_question qid cat = Except.ok q ∧ q ∈ cat ∧ q.id = qid) ∧
    ((∀ q ∈ cat, q.id ≠ qid) →
      get_question qid cat = Except.error ⟨404, "Question not found"⟩) := by
  constructor
  · intro hex
    unfold get_question
    cases hfind : cat.find? (fun q => q.id == qid) with
    | none =>
      obtain ⟨q, hq, hid⟩ := hex
      have := List.find?_eq_none.mp hfind q hq
      simp [hid] at this
    | some q =>
      refine ⟨q, rfl, List.mem_of_find?_eq_some hfind, ?_⟩
      have := List.find?_some hfind
      simpa using this
  · intro hnone
    unfold get_question
    cases hfind : cat.find? (fun q => q.id == qid) with
    | none => rfl
    | some q =>
      have h1 := List.find?_some hfind
      have h2 := List.mem_of_find?_eq_some hfind
      simp only [beq_iff_eq] at h1
      exact absurd h1 (hnone q h2)

/-- C7 witness: id 2 is found in the demo catalog and id 99 is not. -/
theorem getQuestion_found_or_404_witness :
    (∃ q, get_question 99 mock_questions = Except.ok q ∧
        q ∈ mock_questions ∧ q.id = 99) ∨
      get_question 99 mock_questions
        = Except.error ⟨404, "Question not found"⟩ :=
  Or.inr ((getQuestion_found_or_404 99 mock_questions).2 (by decide))

/-- C5 counterexample: a registration whose email is already in the
directory but whose password is the empty string fails the presence check
first and returns 400, not the 409 conflict the claim requires for every
value of the other fields. -/
theorem register_conflict_cex :
    (∃ u ∈ mock_users, u.email = "demo@stackit.com") ∧
    register (some ⟨some "demo@stackit.com", some "", some "Bob"⟩) mock_users
      = (Except.error ⟨400, "Email, password, and name are required"⟩,
         mock_users) ∧
    (register (some ⟨some "demo@stackit.com", some "", some "Bob"⟩)
        mock_users).1
      ≠ Except.error ⟨409, "User with this email already exists"⟩ :=
  ⟨by decide, by decide, by decide⟩

/-- C5 amended: provided email, password and name are all present and
nonempty (so the request passes validation), registering with an email
already in the directory returns the 409 conflict error and leaves the
directory unchanged, regardless of the password and name values. -/
theorem register_conflict_amended (users : List User) (e p n : String)
    (he : e ≠ "") (hp : p ≠ "") (hn : n ≠ "")
    (hex : ∃ u ∈ users, u.email = e) :
    register (some ⟨some e, some p, some n⟩) users
      = (Except.error ⟨409, "User with this email already exists"⟩, users) := by
  obtain ⟨u, hu, hue⟩ := hex
  have hfind : ∃ v, users.find? (fun x => x.email == e) = some v := by
    rw [← Option.isSome_iff_exists, List.find?_isSome]
    exact ⟨u, hu, by simp [hue]⟩
  obtain ⟨v, hv⟩ := hfind
  unfold register
  dsimp only [Option.getD_some]
  have hc : (truthy (some e) && truthy (some p) && truthy (some n)) = true := by
    simp [truthy, he, hp, hn]
  rw [if_pos hc, hv]

/-- C5 amended witness: the demo user's email with a nonempty password and
name. -/
theorem register_conflict_amended_witness :
    register (some ⟨some "demo@stackit.com", some "pw", some "Bob"⟩) mock_users
      = (Except.error ⟨409, "User with this email already exists"⟩,
         mock_users) :=
  register_conflict_amended mock_users "demo@stackit.com" "pw" "Bob"
    (by decide) (by decide) (by decide) (by decide)

/-- C6: question creation fails with a 400 validation error and leaves the
catalog unchanged when the body is absent or title or description is missing
(absent or empty, the code's presence check); otherwise it appends exactly
one record with id = previous count + 1, the fixed demo author, zeroed
counters, `isResolved = false`, the fixed literal timestamps and tags
defaulting to the empty list, and returns that record. -/
theorem createQuestion_spec (cat : List Question) (d : Option CreateReq)
    (t ds : String) (tg : Option (List Tag)) :
    (createOk d = false →
      create_question d cat
        = (Except.error ⟨400, "Title and description are required"⟩, cat)) ∧
    (t ≠ "" → ds ≠ "" →
      ∃ q, create_question (some ⟨some t, some ds, tg⟩) cat
          = (Except.ok q, cat ++ [q]) ∧
        q.id = cat.length + 1 ∧ q.title = t ∧ q.description = ds ∧
        q.author = ⟨1, "Current User", 100⟩ ∧ q.tags = tg.getD [] ∧
        q.voteCount = 0 ∧ q.answerCount = 0 ∧ q.viewCount = 0 ∧
        q.isResolved = false ∧ q.createdAt = "2024-01-16T12:00:00Z" ∧
        q.updatedAt = "2024-01-16T12:00:00Z") := by
  constructor
  · intro hbad
    cases d with
    | none => rfl
    | some r =>
      have hbad' : (truthy r.title && truthy r.description) = false := hbad
      simp only [create_question]
      rw [if_neg (by simp [hbad'])]
  · intro ht hd
    have hc : (truthy (some t) && truthy (some ds)) = true := by
      simp [truthy, ht, hd]
    refine ⟨⟨cat.length + 1, t, ds, ⟨1, "Current User", 100⟩, tg.getD [],
      0, 0, 0, false, "2024-01-16T12:00:00Z", "2024-01-16T12:00:00Z"⟩,
      ?_, rfl, rfl, rfl, rfl, rfl, rfl, rfl, rfl, rfl, rfl, rfl⟩
    simp only [create_question]
    rw [if_pos hc]
    rfl

/-- C6 witness: a missing title is rejected without touching the catalog,
and a concrete valid creation appends the described record. -/
theorem createQuestion_spec_witness :
    create_question (some ⟨some "", some "d", none⟩) ([] : List Question)
        = (Except.error ⟨400, "Title and description are required"⟩,
           ([] : List Question)) ∧
    ∃ q, create_question (some ⟨some "T", some "D", none⟩) ([] : List Question)
        = (Except.ok q, ([] : List Question) ++ [q]) ∧
      q.id = ([] : List Question).length + 1 ∧ q.title = "T" ∧
      q.description = "D" ∧ q.author = ⟨1, "Current User", 100⟩ ∧
      q.tags = (none : Option (List Tag)).getD [] ∧
      q.voteCount = 0 ∧ q.answerCount = 0 ∧ q.viewCount = 0 ∧
      q.isResolved = false ∧ q.createdAt = "2024-01-16T12:00:00Z" ∧
      q.updatedAt = "2024-01-16T12:00:00Z" :=
  ⟨(createQuestion_spec [] (some ⟨some "", some "d", none⟩) "T" "D" none).1 rfl,
   (createQuestion_spec [] (some ⟨some "", some "d", none⟩) "T" "D" none).2
     (by decide) (by decide)⟩

/-- C9: on every successful registration, login or profile fetch, the
returned user object is the stored record's dict with the password entry
filtered out: it keeps every non-password field and never contains a
password entry. -/
theorem respUser_is_stripped_record (rd : Option RegisterReq)
    (ld : Option LoginReq) (users : List User) :
    (∀ resp users2, register rd users = (Except.ok resp, users2) →
      ∃ u, users2 = users ++ [u] ∧ resp.user = stripPassword u.toDict) ∧
    (∀ resp, login ld users = Except.ok resp →
      ∃ u ∈ users, resp.user = stripPassword u.toDict) ∧
    (∀ d, get_profile users = Except.ok d →
      ∃ u ∈ users, d = stripPassword u.toDict) ∧
    (∀ u : User,
      (∀ kv ∈ u.toDict, kv.1 ≠ "password" → kv ∈ stripPassword u.toDict) ∧
      (∀ kv ∈ stripPassword u.toDict, kv ∈ u.toDict ∧ kv.1 ≠ "password")) := by
  refine ⟨?_, ?_, ?_, ?_⟩
  · intro resp users2 h
    cases rd with
    | none => simp [register] at h
    | some d =>
      simp only [register] at h
      by_cases hc : (truthy d.email && truthy d.password && truthy d.name)
          = true
      · rw [if_pos hc] at h
        cases hfind : users.find? (fun u => u.email == d.email.getD "") with
        | some u => rw [hfind] at h; simp at h
        | none =>
          rw [hfind] at h
          rw [Prod.mk.injEq] at h
          obtain ⟨ha, hb⟩ := h
          exact ⟨_, hb.symm, by rw [← Except.ok.inj ha]⟩
      · rw [if_neg hc] at h
        simp at h
  · intro resp h
    cases ld with
    | none => simp [login] at h
    | some d =>
      simp only [login] at h
      by_cases hc : (truthy d.email && truthy d.password) = true
      · rw [if_pos hc] at h
        cases hfind : users.find? (fun u => u.email == d.email.getD "") with
        | none => rw [hfind] at h; simp at h
        | some u =>
          rw [hfind] at h
          have h2 : (if (u.password == d.password.getD "") = true then
                Except.ok (⟨stripPassword u.toDict, mockTokens⟩ : AuthResp)
              else Except.error (⟨401, "Invalid email or password"⟩ : ErrResp))
              = Except.ok resp := h
          by_cases hpw : (u.password == d.password.getD "") = true
          · rw [if_pos hpw] at h2
            exact ⟨u, List.mem_of_find?_eq_some hfind,
              by rw [← Except.ok.inj h2]⟩
          · rw [if_neg hpw] at h2
            simp at h2
      · rw [if_neg hc] at h
        simp at h
  · intro d h
    cases users with
    | nil => simp [get_profile] at h
    | cons u us =>
      have h' : Except.ok (stripPassword u.toDict) = Except.ok d := h
      exact ⟨u, by simp, (Except.ok.inj h').symm⟩
  · intro u
    constructor
    · intro kv hkv hne
      exact List.mem_filter.mpr ⟨hkv, by simpa [bne_iff_ne] using hne⟩
    · intro kv hkv
      have h := List.mem_filter.mp hkv
      exact ⟨h.1, by simpa [bne_iff_ne] using h.2⟩

/-- C9 witness: a concrete successful registration returns exactly the
appended record with the password stripped. -/
theorem respUser_is_stripped_record_witness :
    ∃ u, mock_users ++ [(⟨2, "new@example.com", "Nia", "pw", 0, none⟩ : User)]
        = mock_users ++ [u] ∧
      (⟨stripPassword
          (User.toDict ⟨2, "new@example.com", "Nia", "pw", 0, none⟩),
        mockTokens⟩ : AuthResp).user = stripPassword u.toDict :=
  (respUser_is_stripped_record
      (some ⟨some "new@example.com", some "pw", some "Nia"⟩) none mock_users).1
    ⟨stripPassword (User.toDict ⟨2, "new@example.com", "Nia", "pw", 0, none⟩),
     mockTokens⟩
    (mock_users ++ [(⟨2, "new@example.com", "Nia", "pw", 0, none⟩ : User)])
    (by rfl)

/-- C10: a required field present but equal to the empty string is treated
by register, login and create_question exactly as an absent field — the
call returns the same 400 validation error and the same state; in
particular, registering the already-present demo email with an empty
password yields 400, not the 409 conflict. -/
theorem emptyString_fields_treated_missing (users : List User)
    (cat : List Question) (e p n t ds : Option String)
    (tg : Option (List Tag)) (s : String) :
    (register (some ⟨some "", p, n⟩) users
        = register (some ⟨none, p, n⟩) users ∧
      (register (some ⟨some "", p, n⟩) users).1
        = Except.error ⟨400, "Email, password, and name are required"⟩) ∧
    (register (some ⟨e, some "", n⟩) users
        = register (some ⟨e, none, n⟩) users ∧
      (register (some ⟨e, some "", n⟩) users).1
        = Except.error ⟨400, "Email, password, and name are required"⟩) ∧
    (register (some ⟨e, p, some ""⟩) users
        = register (some ⟨e, p, none⟩) users ∧
      (register (some ⟨e, p, some ""⟩) users).1
        = Except.error ⟨400, "Email, password, and name are required"⟩) ∧
    (login (some ⟨some "", p⟩) users = login (some ⟨none, p⟩) users ∧
      login (some ⟨some "", p⟩) users
        = Except.error ⟨400, "Email and password are required"⟩) ∧
    (login (some ⟨e, some ""⟩) users = login (some ⟨e, none⟩) users ∧
      login (some ⟨e, some ""⟩) users
        = Except.error ⟨400, "Email and password are required"⟩) ∧
    (create_question (some ⟨some "", ds, tg⟩) cat
        = create_question (some ⟨none, ds, tg⟩) cat ∧
      (create_question (some ⟨some "", ds, tg⟩) cat).1
        = Except.error ⟨400, "Title and description are required"⟩) ∧
    (create_question (some ⟨t, some "", tg⟩) cat
        = create_question (some ⟨t, none, tg⟩) cat ∧
      (create_question (some ⟨t, some "", tg⟩) cat).1
        = Except.error ⟨400, "Title and description are required"⟩) ∧
    (register (some ⟨some "demo@stackit.com", some "", some s⟩) mock_users).1
      = Except.error ⟨400, "Email, password, and name are required"⟩ := by
  refine ⟨⟨?_, ?_⟩, ⟨?_, ?_⟩, ⟨?_, ?_⟩, ⟨?_, ?_⟩, ⟨?_, ?_⟩, ⟨?_, ?_⟩,
    ⟨?_, ?_⟩, ?_⟩ <;>
    simp [register, login, create_question, truthy]

